import Mathlib

/-!
Shallow embedding of the collaborative BPMN editor backend
(`backend/app/bpmn_state.py` and `backend/app/main.py`).

The lock table `BpmnState.locks : Dict[str, str]` is modelled as an
insertion-ordered association list from element id to owning session id,
mirroring Python dict semantics (unique keys; inserting a fresh key appends
at the end; `del` removes the unique binding of the key).

The per-connection websocket message loop of `main.py` is modelled one
iteration at a time by `dispatch`: it takes the server-allocated session id
of the connection (the `user_id` local of `websocket_endpoint`, in scope but
unused by the loop body), the shared state, and one decoded inbound message,
and returns either the new state together with the ordered list of outbound
sends, or an error when the Python code would raise `KeyError` on a missing
required field (`msg["element_id"]` / `msg["user_id"]`).
-/

/-- The lock table: `self.locks : Dict[str, str]`, element id to owner. -/
abbrev LockTable := List (String × String)

/-- Python `self.locks.get(e)`: the binding of key `e`, if present. -/
def lookupLock : LockTable → String → Option String
  | [], _ => none
  | p :: ps, e => if p.1 = e then some p.2 else lookupLock ps e

/-- Python `del self.locks[e]`: remove the (unique) binding of key `e`. -/
def eraseLock : LockTable → String → LockTable
  | [], _ => []
  | p :: ps, e => if p.1 = e then ps else p :: eraseLock ps e

/-- `BpmnState.acquire_lock(element_id, user_id)` from `bpmn_state.py`:
fail if `element_id in self.locks`, otherwise bind the lock and succeed.
Returns the Python return value paired with the lock table after the call. -/
def acquire_lock (locks : LockTable) (element_id user_id : String) :
    Bool × LockTable :=
  if (lookupLock locks element_id).isSome then (false, locks)
  else (true, locks ++ [(element_id, user_id)])

/-- `BpmnState.release_lock(element_id, user_id)` from `bpmn_state.py`:
succeed and delete the binding iff `self.locks.get(element_id) == user_id`. -/
def release_lock (locks : LockTable) (element_id user_id : String) :
    Bool × LockTable :=
  if lookupLock locks element_id = some user_id then
    (true, eraseLock locks element_id)
  else (false, locks)

/-- The shared mutable state of `BpmnState` (the users dict is tracked by its
keys only; no handler inspects the info payloads). -/
structure BpmnState where
  xml : String
  users : List String
  locks : LockTable
deriving DecidableEq

/-- `BpmnState.remove_user(user_id)` from `bpmn_state.py`: pop the user and
delete every lock whose owner is `user_id`. The Python function body has no
`return` statement, so its return value is `None`; the second component of
the result records that returned value (type `Option (List String)` because
the specification expects a collection of released element ids here). -/
def remove_user (st : BpmnState) (user_id : String) :
    BpmnState × Option (List String) :=
  ({ st with
      users := st.users.filter (fun x => x != user_id),
      locks := st.locks.filter (fun p => p.2 != user_id) },
   none)

/-- One decoded inbound JSON message. Every field access in `main.py` goes
through `msg.get(k)` (which yields `None` when absent) or `msg[k]` (which
raises `KeyError` when absent), so each field is modelled as optional.
`author` models the JSON field named `by` of `update_xml` messages. -/
structure Msg where
  type : Option String
  element_id : Option String
  user_id : Option String
  xml : Option String
  author : Option String
deriving DecidableEq

/-- One outbound protocol message, as constructed in `websocket_endpoint`.
Fields that `main.py` fills from `msg.get(...)` are optional; fields filled
from `msg[...]` (which are known present at that point) are plain strings. -/
inductive OutMsg where
  | xml_update (xml : String) (author : Option String)
  | lock_acquired (element_id user_id : String)
  | lock_denied (element_id user_id : Option String)
  | lock_released (element_id user_id : String)
  | lock_release_failed (element_id user_id : Option String)
  | locks_update (locks : LockTable)
deriving DecidableEq

/-- One outbound delivery: `ws.send_text` to the requesting connection only,
or `manager.broadcast` to every connection. -/
inductive Output where
  | send (m : OutMsg)
  | broadcast (m : OutMsg)
deriving DecidableEq

/-- The Python exception raised by `msg["element_id"]` / `msg["user_id"]`
when the field is absent. -/
inductive HandlerError where
  | keyError
deriving DecidableEq

/-- One iteration of the message loop of `websocket_endpoint` in `main.py`:
dispatch one inbound message against the shared state. `connUser` is the
server-allocated session id of this connection (the loop body never reads
it). Returns the new state and the ordered outbound sends, or the exception
that escapes the dispatch. -/
def dispatch (connUser : String) (st : BpmnState) (m : Msg) :
    Except HandlerError (BpmnState × List Output) :=
  if m.type = some "update_xml" then
    let xml := m.xml.getD ""
    .ok ({ st with xml := xml }, [.broadcast (.xml_update xml m.author)])
  else if m.type = some "acquire_lock" then
    if m.element_id = some "canvas" then
      .ok (st, [.send (.lock_denied m.element_id m.user_id),
                .broadcast (.locks_update st.locks)])
    else
      match m.element_id, m.user_id with
      | some e, some u =>
        .ok ({ st with locks := (acquire_lock st.locks e u).2 },
             [.send (if (acquire_lock st.locks e u).1 then .lock_acquired e u
                     else .lock_denied (some e) (some u)),
              .broadcast (.locks_update (acquire_lock st.locks e u).2)])
      | _, _ => .error .keyError
  else if m.type = some "release_lock" then
    if m.element_id = some "canvas" then
      .ok (st, [.broadcast (.lock_release_failed m.element_id m.user_id)])
    else
      match m.element_id, m.user_id with
      | some e, some u =>
        .ok ({ st with locks := (release_lock st.locks e u).2 },
             if (release_lock st.locks e u).1 then
               [.broadcast (.lock_released e u),
                .broadcast (.locks_update (release_lock st.locks e u).2)]
             else
               [.broadcast (.lock_release_failed (some e) (some u))])
      | _, _ => .error .keyError
  else
    .ok (st, [])

/-- An outbound transport channel held by `ConnectionManager`: its identity
and whether a delivery attempt to it fails (raises). -/
structure Channel where
  id : Nat
  fails : Bool
deriving DecidableEq

/-- `conn.send_text(data)`: delivery to one channel, which may raise. -/
def send_text (c : Channel) : Except Unit Unit :=
  if c.fails then .error () else .ok ()

/-- `ConnectionManager.broadcast` from `main.py`: iterate over a snapshot of
the connection list; each `send_text` sits in `try ... except Exception:
pass`, so a raising delivery is swallowed and iteration continues. The
result is the list of deliveries that actually happened, in order; the
return type is total, reflecting that no exception escapes `broadcast`. -/
def broadcast (conns : List Channel) (data : String) : List (Nat × String) :=
  match conns with
  | [] => []
  | c :: rest =>
    match send_text c with
    | .ok _ => (c.id, data) :: broadcast rest data
    | .error _ => broadcast rest data

/-- Driver for the mutual-exclusion property: apply a sequence of
`acquire_lock e s` calls, one per session in the list, threading the lock
table through; collect the returned booleans and the final table. -/
def acquireSeq (e : String) (locks : LockTable) :
    List String → List Bool × LockTable
  | [] => ([], locks)
  | s :: ss =>
    ((acquire_lock locks e s).1 ::
       (acquireSeq e (acquire_lock locks e s).2 ss).1,
     (acquireSeq e (acquire_lock locks e s).2 ss).2)

theorem lookupLock_append_self (l : LockTable) (e u : String)
    (h0 : lookupLock l e = none) :
    lookupLock (l ++ [(e, u)]) e = some u := by
  induction l with
  | nil => simp [lookupLock]
  | cons p ps ih =>
    rw [lookupLock] at h0
    by_cases hp : p.1 = e
    · rw [if_pos hp] at h0; exact absurd h0 (by simp)
    · rw [if_neg hp] at h0
      simpa [lookupLock, hp] using ih h0

theorem lookupLock_append_ne (l : LockTable) (e c u : String) (h : e ≠ c)
    (h0 : lookupLock l c = none) :
    lookupLock (l ++ [(e, u)]) c = none := by
  induction l with
  | nil => simp [lookupLock, h]
  | cons p ps ih =>
    rw [lookupLock] at h0
    by_cases hp : p.1 = c
    · rw [if_pos hp] at h0; exact absurd h0 (by simp)
    · rw [if_neg hp] at h0
      simpa [lookupLock, hp] using ih h0

theorem lookupLock_eraseLock_none (l : LockTable) (e c : String)
    (h0 : lookupLock l c = none) :
    lookupLock (eraseLock l e) c = none := by
  induction l with
  | nil => simp [eraseLock, lookupLock]
  | cons p ps ih =>
    rw [lookupLock] at h0
    by_cases hp : p.1 = c
    · rw [if_pos hp] at h0; exact absurd h0 (by simp)
    · rw [if_neg hp] at h0
      rw [eraseLock]
      by_cases hq : p.1 = e
      · rw [if_pos hq]; exact h0
      · rw [if_neg hq, lookupLock, if_neg hp]; exact ih h0

theorem lookupLock_filter_none (l : LockTable) (p : String × String → Bool)
    (c : String) (h0 : lookupLock l c = none) :
    lookupLock (l.filter p) c = none := by
  induction l with
  | nil => simp [lookupLock]
  | cons q qs ih =>
    rw [lookupLock] at h0
    by_cases hq : q.1 = c
    · rw [if_pos hq] at h0; exact absurd h0 (by simp)
    · rw [if_neg hq] at h0
      rw [List.filter_cons]
      by_cases hp : p q
      · simp only [hp, if_true, lookupLock, if_neg hq]
        exact ih h0
      · simp only [hp, if_false]
        exact ih h0

theorem acquireSeq_locked (e : String) (l : LockTable) (ss : List String)
    (h : (lookupLock l e).isSome = true) :
    ((acquireSeq e l ss).1.count true) = 0 := by
  induction ss generalizing l with
  | nil => simp [acquireSeq]
  | cons s ss ih =>
    have ha : acquire_lock l e s = (false, l) := by
      rw [acquire_lock, if_pos h]
    simp [acquireSeq, ha, List.count_cons, ih l h]

/-- Claim C1: for every element id `e`, every starting lock table, and every
sequence of `acquire_lock e s` calls from distinct sessions, at most one
call returns true (mutual exclusion): once one acquire succeeds, the element
is a key of the table and every later acquire fails until a release or an
owner removal deletes the key. -/
theorem acquire_lock_mutual_exclusion (e : String) (l : LockTable)
    (ss : List String) (hd : ss.Nodup) :
    ((acquireSeq e l ss).1.count true) ≤ 1 := by
  induction ss generalizing l with
  | nil => simp [acquireSeq]
  | cons s ss ih =>
    by_cases hl : (lookupLock l e).isSome
    · rw [acquireSeq_locked e l (s :: ss) hl]
      omega
    · have hnone : lookupLock l e = none :=
        Option.not_isSome_iff_eq_none.mp hl
      have ha : acquire_lock l e s = (true, l ++ [(e, s)]) := by
        rw [acquire_lock, if_neg (by simp [hl])]
      have h2 : (lookupLock (l ++ [(e, s)]) e).isSome = true := by
        rw [lookupLock_append_self l e s hnone]; rfl
      have h3 := acquireSeq_locked e (l ++ [(e, s)]) ss h2
      simp [acquireSeq, ha, List.count_cons, h3]

/-- Witness for C1: three distinct sessions race on one element starting
from the empty table; at most one of the three acquires succeeds. -/
theorem acquire_lock_mutual_exclusion_witness :
    (["u1", "u2", "u3"] : List String).Nodup ∧
      ((acquireSeq "e1" [] ["u1", "u2", "u3"]).1.count true) ≤ 1 :=
  ⟨by decide,
   acquire_lock_mutual_exclusion "e1" [] ["u1", "u2", "u3"] (by decide)⟩

/-- Counterexample for C2: `BpmnState.acquire_lock` itself performs no check
for the reserved canvas identifier; called directly with element id
`canvas` on an empty table it returns true and inserts the binding, against
the claim that it returns false with no mutation. -/
theorem acquire_lock_canvas_counterexample :
    acquire_lock [] "canvas" "u1" = (true, [("canvas", "u1")]) := rfl

/-- Claim C2 (amended): the canvas guard lives in the websocket handler, not
in `BpmnState.acquire_lock`: the handler answers an `acquire_lock` message
targeting `canvas` with `lock_denied` without ever calling the lock-table
acquire, so a lock table that does not contain the key `canvas` never gains
it across any successful message dispatch, and user removal preserves this
as well. -/
theorem dispatch_canvas_never_locked (cu : String) (st : BpmnState) (m : Msg)
    (u : String) (h0 : lookupLock st.locks "canvas" = none) :
    (∀ st' outs, dispatch cu st m = .ok (st', outs) →
       lookupLock st'.locks "canvas" = none)
    ∧ lookupLock (remove_user st u).1.locks "canvas" = none := by
  constructor
  · intro st' outs h
    unfold dispatch at h
    split at h
    · injection h with h1
      injection h1 with h2 h3
      subst h2
      exact h0
    · split at h
      · split at h
        · injection h with h1
          injection h1 with h2 h3
          subst h2
          exact h0
        next hcan =>
          split at h
          next e u2 heq1 heq2 =>
            injection h with h1
            injection h1 with h2 h3
            subst h2
            show lookupLock (acquire_lock st.locks e u2).2 "canvas" = none
            have hne : e ≠ "canvas" := by
              intro hc
              subst hc
              exact hcan heq1
            rw [acquire_lock]
            by_cases hs : (lookupLock st.locks e).isSome
            · rw [if_pos hs]
              exact h0
            · rw [if_neg hs]
              exact lookupLock_append_ne st.locks e "canvas" u2 hne h0
          next => exact absurd h (by simp)
      · split at h
        · split at h
          · injection h with h1
            injection h1 with h2 h3
            subst h2
            exact h0
          · split at h
            next e u2 heq1 heq2 =>
              injection h with h1
              injection h1 with h2 h3
              subst h2
              show lookupLock (release_lock st.locks e u2).2 "canvas" = none
              rw [release_lock]
              by_cases hs : lookupLock st.locks e = some u2
              · rw [if_pos hs]
                exact lookupLock_eraseLock_none st.locks e "canvas" h0
              · rw [if_neg hs]
                exact h0
            next => exact absurd h (by simp)
        · injection h with h1
          injection h1 with h2 h3
          subst h2
          exact h0
  · exact lookupLock_filter_none st.locks _ "canvas" h0

/-- Witness for C2 (amended): from a state with an unlocked table, removing
a user keeps `canvas` out of the lock table. -/
theorem dispatch_canvas_never_locked_witness :
    lookupLock ([] : LockTable) "canvas" = none ∧
      lookupLock (remove_user ⟨"", ["u1"], []⟩ "u1").1.locks "canvas" = none :=
  ⟨rfl,
   (dispatch_canvas_never_locked "srv" ⟨"", ["u1"], []⟩
      ⟨none, none, none, none, none⟩ "u1" rfl).2⟩

/-- Counterexample for C3: when the table already maps `e1` to `u1`, a
re-acquisition of `e1` by the same session `u1` returns false and changes
nothing — the code denies it instead of treating it as idempotent success. -/
theorem acquire_lock_reacquire_counterexample :
    acquire_lock [("e1", "u1")] "e1" "u1" = (false, [("e1", "u1")]) := rfl

/-- Claim C3 (amended): re-acquisition by the current owner is denied, not
an idempotent success: `acquire_lock` fails on any element that is already a
key of the lock table, regardless of who owns it, so if the table maps `e`
to `s` then `acquire_lock e s` returns false and leaves the table unchanged. -/
theorem acquire_lock_reacquire_denied (locks : LockTable) (e s : String)
    (h : lookupLock locks e = some s) :
    acquire_lock locks e s = (false, locks) := by
  rw [acquire_lock, if_pos (by rw [h]; rfl)]

/-- Witness for C3 (amended): the owner of `e1` is denied re-acquisition. -/
theorem acquire_lock_reacquire_denied_witness :
    lookupLock [("e1", "u1")] "e1" = some "u1" ∧
      acquire_lock [("e1", "u1")] "e1" "u1" = (false, [("e1", "u1")]) :=
  ⟨rfl, acquire_lock_reacquire_denied [("e1", "u1")] "e1" "u1" rfl⟩

/-- Counterexample for C5: `BpmnState.remove_user` does not return the set
of released element ids: with `u1` owning the single lock on `e1`, removing
`u1` releases that lock but the function's return value is Python's `None`,
not the released collection containing `e1` that the claim requires. -/
theorem remove_user_returns_no_set :
    (remove_user ⟨"", ["u1"], [("e1", "u1")]⟩ "u1").2 = none ∧
      (none : Option (List String)) ≠ some ["e1"] :=
  ⟨rfl, by decide⟩

/-- Claim C5 (amended): the release-all step of `remove_user s` removes
exactly the locks whose owner is `s` (a lock survives iff its owner differs
from `s`), is idempotent (a second consecutive call removes nothing), and
returns `None` rather than the set of released element ids — the disconnect
path instead broadcasts the full post-release lock snapshot. -/
theorem remove_user_release_all (st : BpmnState) (u : String) :
    (∀ p : String × String,
       p ∈ (remove_user st u).1.locks ↔ p ∈ st.locks ∧ p.2 ≠ u)
    ∧ (remove_user (remove_user st u).1 u).1.locks = (remove_user st u).1.locks
    ∧ (remove_user st u).2 = none := by
  refine ⟨?_, ?_, rfl⟩
  · intro p
    simp [remove_user, List.mem_filter, bne_iff_ne]
  · simp [remove_user, List.filter_filter]

/-- Claim C6: `release_lock e s` succeeds exactly when a lock on `e` exists
with owner `s`; on success it deletes that binding, and in every other case
(no lock on `e`, or a different owner) it returns false and leaves the
table unchanged. -/
theorem release_lock_owner_match (locks : LockTable) (e s : String) :
    ((release_lock locks e s).1 = true ↔ lookupLock locks e = some s)
    ∧ ((release_lock locks e s).1 = true →
         (release_lock locks e s).2 = eraseLock locks e)
    ∧ ((release_lock locks e s).1 = false →
         (release_lock locks e s).2 = locks) := by
  simp only [release_lock]
  by_cases h : lookupLock locks e = some s
  · simp [h]
  · simp [h]

/-- Witness for C6: the owner `u1` successfully releases its lock on `e1`,
and the binding is deleted. -/
theorem release_lock_owner_match_witness :
    (release_lock [("e1", "u1")] "e1" "u1").1 = true ∧
      (release_lock [("e1", "u1")] "e1" "u1").2 = eraseLock [("e1", "u1")] "e1" := by
  have h := release_lock_owner_match [("e1", "u1")] "e1" "u1"
  exact ⟨h.1.mpr rfl, h.2.1 (h.1.mpr rfl)⟩

/-- Counterexample for C4: an `acquire_lock` message missing its
`element_id` is not ignored silently — `msg["element_id"]` raises
`KeyError`, which escapes the dispatch (and is not caught by the
`WebSocketDisconnect` handler, so the connection faults). -/
theorem dispatch_missing_field_counterexample :
    dispatch "srv" ⟨"", [], []⟩ ⟨some "acquire_lock", none, none, none, none⟩
      = .error .keyError := rfl

/-- Claim C4 (amended): an inbound message whose `type` is unknown (or
absent) is ignored silently — no response, no state change, no error; but a
message of a known lock kind (`acquire_lock` / `release_lock`, with a
non-canvas target) that is missing `element_id` or `user_id` raises
`KeyError` out of the dispatch rather than being ignored. -/
theorem dispatch_malformed_policy :
    (∀ cu st m, m.type ≠ some "update_xml" → m.type ≠ some "acquire_lock" →
       m.type ≠ some "release_lock" → dispatch cu st m = .ok (st, []))
    ∧ (∀ cu st uid x b,
         dispatch cu st ⟨some "acquire_lock", none, uid, x, b⟩
           = .error .keyError)
    ∧ (∀ cu st e x b, e ≠ "canvas" →
         dispatch cu st ⟨some "acquire_lock", some e, none, x, b⟩
           = .error .keyError)
    ∧ (∀ cu st uid x b,
         dispatch cu st ⟨some "release_lock", none, uid, x, b⟩
           = .error .keyError)
    ∧ (∀ cu st e x b, e ≠ "canvas" →
         dispatch cu st ⟨some "release_lock", some e, none, x, b⟩
           = .error .keyError) := by
  refine ⟨?_, ?_, ?_, ?_, ?_⟩
  · intro cu st m h1 h2 h3
    unfold dispatch
    rw [if_neg h1, if_neg h2, if_neg h3]
  · intro cu st uid x b
    rfl
  · intro cu st e x b he
    simp [dispatch, he]
  · intro cu st uid x b
    rfl
  · intro cu st e x b he
    simp [dispatch, he]

/-- Witness for C4 (amended): a message of unknown kind `ping` is ignored
with no outputs, while an `acquire_lock` on `Task_1` missing `user_id`
raises `KeyError`. -/
theorem dispatch_malformed_policy_witness :
    (some "ping" : Option String) ≠ some "update_xml" ∧
      (some "ping" : Option String) ≠ some "acquire_lock" ∧
      (some "ping" : Option String) ≠ some "release_lock" ∧
      dispatch "srv" ⟨"", [], []⟩ ⟨some "ping", none, none, none, none⟩
        = .ok (⟨"", [], []⟩, []) ∧
      ("Task_1" : String) ≠ "canvas" ∧
      dispatch "srv" ⟨"", [], []⟩
          ⟨some "acquire_lock", some "Task_1", none, none, none⟩
        = .error .keyError := by
  refine ⟨by decide, by decide, by decide, ?_, by decide, ?_⟩
  · exact dispatch_malformed_policy.1 "srv" ⟨"", [], []⟩
      ⟨some "ping", none, none, none, none⟩ (by decide) (by decide) (by decide)
  · exact dispatch_malformed_policy.2.2.1 "srv" ⟨"", [], []⟩ "Task_1" none none
      (by decide)

/-- Claim C7: an `acquire_lock` message targeting `canvas` makes the handler
send `lock_denied` to the requester only and then broadcast a `locks_update`
snapshot; a `release_lock` message targeting `canvas` makes it broadcast
`lock_release_failed` to all connections, with no lock-table change and no
`locks_update` broadcast. -/
theorem dispatch_canvas_responses (cu : String) (st : BpmnState)
    (uid x b : Option String) :
    dispatch cu st ⟨some "acquire_lock", some "canvas", uid, x, b⟩
      = .ok (st, [.send (.lock_denied (some "canvas") uid),
                  .broadcast (.locks_update st.locks)])
    ∧ dispatch cu st ⟨some "release_lock", some "canvas", uid, x, b⟩
      = .ok (st, [.broadcast (.lock_release_failed (some "canvas") uid)]) :=
  ⟨rfl, rfl⟩

/-- Claim C8: `ConnectionManager.broadcast` delivers to exactly the
channels whose delivery does not fail, in order — a failing channel is
skipped (its exception is caught and ignored) and never prevents delivery
to the remaining channels; in particular with three channels of which the
middle one always fails, the other two still receive the message. The
embedding returns the delivery list totally, reflecting that no exception
escapes `broadcast`. -/
theorem broadcast_failure_isolation :
    (∀ conns data, broadcast conns data
       = (conns.filter (fun c => !c.fails)).map (fun c => (c.id, data)))
    ∧ (∀ data : String,
         broadcast [⟨1, false⟩, ⟨2, true⟩, ⟨3, false⟩] data
           = [(1, data), (3, data)]) := by
  constructor
  · intro conns data
    induction conns with
    | nil => simp [broadcast]
    | cons c rest ih =>
      by_cases hf : c.fails
      · simp [broadcast, send_text, hf, ih]
      · simp [broadcast, send_text, hf, ih]
  · intro data
    simp [broadcast, send_text]

/-- Claim C9: the message loop never reads the connection's server-assigned
session id while dispatching (any two connection identities dispatch every
message identically), and a lock acquire is performed with the
message-supplied `user_id`: a connection whose session is `cu` can bind a
lock for an arbitrary identity `v`, which becomes the recorded owner. -/
theorem dispatch_user_id_from_message :
    (∀ cu cu' st m, dispatch cu st m = dispatch cu' st m)
    ∧ (∀ cu st e v, e ≠ "canvas" → lookupLock st.locks e = none →
         dispatch cu st ⟨some "acquire_lock", some e, some v, none, none⟩
           = .ok ({ st with locks := st.locks ++ [(e, v)] },
                  [.send (.lock_acquired e v),
                   .broadcast (.locks_update (st.locks ++ [(e, v)]))])
         ∧ lookupLock (st.locks ++ [(e, v)]) e = some v) := by
  constructor
  · intro cu cu' st m
    rfl
  · intro cu st e v he hn
    have ha : acquire_lock st.locks e v = (true, st.locks ++ [(e, v)]) := by
      rw [acquire_lock, if_neg (by simp [hn])]
    constructor
    · simp [dispatch, he, ha]
    · exact lookupLock_append_self st.locks e v hn

/-- Witness for C9: a connection with server session id `server-id`
acquires a lock on behalf of the unrelated identity `mallory`, which is
recorded as the owner. -/
theorem dispatch_user_id_from_message_witness :
    ("Task_1" : String) ≠ "canvas" ∧
      lookupLock ([] : LockTable) "Task_1" = none ∧
      dispatch "server-id" ⟨"", [], []⟩
          ⟨some "acquire_lock", some "Task_1", some "mallory", none, none⟩
        = .ok (⟨"", [], [("Task_1", "mallory")]⟩,
               [.send (.lock_acquired "Task_1" "mallory"),
                .broadcast (.locks_update [("Task_1", "mallory")])]) := by
  refine ⟨by decide, rfl, ?_⟩
  exact (dispatch_user_id_from_message.2 "server-id" ⟨"", [], []⟩ "Task_1"
    "mallory" (by decide) rfl).1

/-- Claim C10: an `update_xml` message with no `xml` field is not rejected:
the missing field defaults to the empty string, the document is replaced by
`""`, and `xml_update` is broadcast with `xml` equal to `""`. -/
theorem dispatch_update_xml_missing_field (cu : String) (st : BpmnState)
    (eid uid b : Option String) :
    dispatch cu st ⟨some "update_xml", eid, uid, none, b⟩
      = .ok ({ st with xml := "" }, [.broadcast (.xml_update "" b)]) := rfl
